import Mathlib

/-!
Shallow embedding of the Stage 3 game object model of
`invaders-from-space` (`src/stages/Stage 3/objects.py`) and proofs of the
behavioural properties of its specification.

Conventions of the embedding:
* Coordinates, sizes, speeds and times are rationals (ℚ), standing for the
  Python floats; all the arithmetic in the source (additions and
  multiplications of positions, speeds and times) is exact on the inputs we
  consider, so ℚ is a faithful carrier.
* The image assets are not part of the repository, so their pixel
  dimensions are parameters, collected in an `Env` record.
* pyglet's one-shot scheduler (`pyglet.clock.schedule_once(cb, delay)`,
  registered at simulated time `now`) is modelled by storing the absolute
  due time `now + delay` in the object's state; a `runSched` function fires
  the callback once the simulated clock has reached the due time.
* A pyglet `Sprite` is its position plus its post-scale width and height;
  `Sprite(img, x, y)` has width `img.width * scale` after `sprite.scale`
  is assigned, and width `img.width` (scale 1, the pyglet default) when the
  scale attribute is never assigned, as in `GameObject.explode`.
-/

/-- Pixel dimensions of the image assets loaded by `objects.py`
(`player.png`, `bullet.png`, `explosion.png`).  They are external inputs of
the program, hence parameters of the embedding. -/
structure Env where
  playerImgW : ℚ
  playerImgH : ℚ
  bulletImgW : ℚ
  bulletImgH : ℚ
  explosionImgW : ℚ
  explosionImgH : ℚ

/-- A pyglet sprite as the game logic observes it: anchor position and
post-scale bounding width/height. -/
structure Sprite where
  x : ℚ
  y : ℚ
  width : ℚ
  height : ℚ
deriving DecidableEq

/-- State of a `GameObject` (base class of `objects.py`): the sprite, the
two boolean flags, and the due time of a pending scheduled `destroy`
callback (`none` when no `schedule_once(self.destroy, ...)` is pending). -/
structure GameObject where
  sprite : Sprite
  exploded : Bool
  destroyed : Bool
  pendingDestroyAt : Option ℚ
deriving DecidableEq

namespace GameObject

/-- Class variable `GameObject.scale = 1`. -/
def scale : ℚ := 1

/-- Class variable `GameObject.explosion_time = 0.2`. -/
def explosion_time : ℚ := 1/5

/-- `GameObject.__init__(x_pos, y_pos)`: builds the sprite from the class
image at the given anchor and applies the class scale
(`self.sprite.scale = self.scale`), then sets both flags to `False`.
`img` is the (width, height) of the class's `image` asset and `scl` the
class's `scale`, supplied by each subclass. -/
def init (img : ℚ × ℚ) (scl : ℚ) (x_pos y_pos : ℚ) : GameObject :=
  { sprite := { x := x_pos, y := y_pos, width := img.1 * scl, height := img.2 * scl }
    exploded := false
    destroyed := false
    pendingDestroyAt := none }

/-- `GameObject.has_hit(other_object)`: nested strict comparisons of this
object's anchor against the other's bounding rectangle, returning `False`
by default. -/
def has_hit (self other_object : GameObject) : Bool :=
  if self.sprite.x > other_object.sprite.x ∧
      self.sprite.x < other_object.sprite.x + other_object.sprite.width then
    if self.sprite.y > other_object.sprite.y ∧
        self.sprite.y < other_object.sprite.y + other_object.sprite.height then
      true
    else
      false
  else
    false

/-- The call `A.has_hit(B)` as a state-threading method: the Python body
only reads attributes of `self` and `other_object`, so the embedded call
returns the boolean result together with the two post-call states. -/
def has_hit_call (self other_object : GameObject) :
    Bool × GameObject × GameObject :=
  if self.sprite.x > other_object.sprite.x ∧
      self.sprite.x < other_object.sprite.x + other_object.sprite.width then
    if self.sprite.y > other_object.sprite.y ∧
        self.sprite.y < other_object.sprite.y + other_object.sprite.height then
      (true, self, other_object)
    else
      (false, self, other_object)
  else
    (false, self, other_object)

/-- `GameObject.draw()`: renders the sprite; no effect on the logical
state. -/
def draw (self : GameObject) : GameObject := self

/-- `GameObject.destroy(elapsed_time=None)`: sets `destroyed = True`. -/
def destroy (self : GameObject) : GameObject :=
  { self with destroyed := true }

/-- `GameObject.explode()` called at simulated time `now`: sets
`exploded = True`, replaces the sprite by a fresh
`Sprite(explosion_image, x, y)` at the same anchor (no scale is assigned to
the new sprite, so its width/height are the raw explosion image
dimensions), and schedules `self.destroy` to run `explosion_time` seconds
later. -/
def explode (env : Env) (now : ℚ) (self : GameObject) : GameObject :=
  { self with
    exploded := true
    sprite := { x := self.sprite.x, y := self.sprite.y,
                width := env.explosionImgW, height := env.explosionImgH }
    pendingDestroyAt := some (now + explosion_time) }

/-- The pyglet clock at simulated time `t`: fires the pending scheduled
`destroy` callback if its due time has been reached. -/
def runSched (t : ℚ) (self : GameObject) : GameObject :=
  match self.pendingDestroyAt with
  | some td => if td ≤ t then { self with destroyed := true, pendingDestroyAt := none }
               else self
  | none => self

/-- Whether the object is destroyed when queried at simulated time `t`
(after the clock has fired every callback due by `t`). -/
def destroyedAt (t : ℚ) (self : GameObject) : Bool :=
  (self.runSched t).destroyed

end GameObject

namespace Bullet

/-- Class variable `Bullet.speed = 180`. -/
def speed : ℚ := 180

/-- Class variable `Bullet.scale = 0.2`. -/
def scale : ℚ := 1/5

/-- `Bullet.__init__(x_pos)`: delegates to `GameObject.__init__` with
`y_pos = Player.image.height + self.image.height * self.scale`, using the
bullet image and bullet scale. -/
def init (env : Env) (x_pos : ℚ) : GameObject :=
  GameObject.init (env.bulletImgW, env.bulletImgH) scale x_pos
    (env.playerImgH + env.bulletImgH * scale)

/-- `Bullet.update(elapsed_time)`: `self.sprite.y += self.speed * elapsed_time`. -/
def update (elapsed_time : ℚ) (self : GameObject) : GameObject :=
  { self with sprite := { self.sprite with y := self.sprite.y + speed * elapsed_time } }

end Bullet

/-- The pressed/held state of the three keys `Player.update` reads from its
`key_handler`. -/
structure Keys where
  left : Bool
  right : Bool
  fire : Bool

/-- State of a `Player`: the inherited `GameObject` state, the `cooldown`
flag, and the due time of a pending scheduled `end_cooldown` callback. -/
structure PlayerState where
  obj : GameObject
  cooldown : Bool
  pendingEndCooldownAt : Option ℚ
deriving DecidableEq

namespace Player

/-- Class variable `Player.speed = 150`. -/
def speed : ℚ := 150

/-- Class variable `Player.cooldown_time = 0.5`. -/
def cooldown_time : ℚ := 1/2

/-- `Player.__init__(window)`: `GameObject.__init__(x_pos=20, y_pos=20)`
with the player image and inherited scale 1, then `cooldown = False`.  The
window's bullet list is threaded separately. -/
def init (env : Env) : PlayerState :=
  { obj := GameObject.init (env.playerImgW, env.playerImgH) GameObject.scale 20 20
    cooldown := false
    pendingEndCooldownAt := none }

/-- `Player.move(speed, elapsed_time)`: `self.sprite.x += speed * elapsed_time`. -/
def move (spd elapsed_time : ℚ) (self : PlayerState) : PlayerState :=
  { self with obj := { self.obj with
      sprite := { self.obj.sprite with x := self.obj.sprite.x + spd * elapsed_time } } }

/-- `Player.end_cooldown(elapsed_time=None)`: sets `cooldown = False`. -/
def end_cooldown (self : PlayerState) : PlayerState :=
  { self with cooldown := false }

/-- `Player.fire()`: appends `Bullet(self.sprite.x + self.sprite.width / 2)`
to `self.window.bullets`. -/
def fire (env : Env) (self : PlayerState) (bullets : List GameObject) :
    List GameObject :=
  bullets ++ [Bullet.init env (self.obj.sprite.x + self.obj.sprite.width / 2)]

/-- `Player.update(elapsed_time)` at simulated time `now`: move if exactly
one of the movement keys is held, then, if the fire key is held and
`cooldown` is false, call `fire()`, set `cooldown = True` and schedule
`end_cooldown` to run `cooldown_time` seconds later. -/
def update (env : Env) (keys : Keys) (now elapsed_time : ℚ)
    (self : PlayerState) (bullets : List GameObject) :
    PlayerState × List GameObject :=
  let self :=
    if keys.left && !keys.right then move (-speed) elapsed_time self
    else if keys.right && !keys.left then move speed elapsed_time self
    else self
  if keys.fire && !self.cooldown then
    ({ self with cooldown := true,
                 pendingEndCooldownAt := some (now + cooldown_time) },
     fire env self bullets)
  else
    (self, bullets)

/-- The pyglet clock at simulated time `t`: fires the pending scheduled
`end_cooldown` callback if its due time has been reached. -/
def runSched (t : ℚ) (self : PlayerState) : PlayerState :=
  match self.pendingEndCooldownAt with
  | some te => if te ≤ t then { end_cooldown self with pendingEndCooldownAt := none }
               else self
  | none => self

/-- One game-loop tick at simulated time `tk.1` with frame delta `tk.2.1`
and key state `tk.2.2`: the clock fires due callbacks, then the window
calls `Player.update`. -/
def tick (env : Env) (tk : ℚ × ℚ × Keys) (s : PlayerState × List GameObject) :
    PlayerState × List GameObject :=
  update env tk.2.2 tk.1 tk.2.1 (runSched tk.1 s.1) s.2

/-- A sequence of game-loop ticks. -/
def runTicks (env : Env) (ticks : List (ℚ × ℚ × Keys))
    (s : PlayerState × List GameObject) : PlayerState × List GameObject :=
  ticks.foldl (fun s tk => tick env tk s) s

end Player

/- ------------------------------------------------------------------ -/
/- Theorems                                                            -/
/- ------------------------------------------------------------------ -/

/-- C1: `A.has_hit(B)` is true iff A's anchor lies strictly inside B's
bounding rectangle (`B.x < A.x < B.x + B.width` and
`B.y < A.y < B.y + B.height`); an anchor on the boundary yields false
because all four comparisons are strict. -/
theorem hasHit_iff_strictly_inside (A B : GameObject) :
    A.has_hit B = true ↔
      (B.sprite.x < A.sprite.x ∧ A.sprite.x < B.sprite.x + B.sprite.width ∧
       B.sprite.y < A.sprite.y ∧ A.sprite.y < B.sprite.y + B.sprite.height) := by
  simp [GameObject.has_hit]
  tauto

/-- Helper: the y coordinate never decreases across a run of
`Bullet.update` calls with nonnegative elapsed times. -/
lemma bullet_foldl_y_mono (dts : List ℚ) (g : GameObject)
    (h : ∀ d ∈ dts, 0 ≤ d) :
    g.sprite.y ≤ (dts.foldl (fun s d => Bullet.update d s) g).sprite.y := by
  induction dts generalizing g with
  | nil => simp
  | cons d rest ih =>
    simp only [List.foldl_cons]
    refine le_trans ?_ (ih (Bullet.update d g) (fun x hx => h x (by simp [hx])))
    have hd : 0 ≤ d := h d (by simp)
    simp only [Bullet.update, Bullet.speed]
    nlinarith

/-- C7: `Bullet.update(dt)` adds exactly `speed * dt` to `position.y`
(speed 180, so `dt = 1` adds exactly 180), causes no horizontal motion,
performs no bounds check (the flags are untouched, so an off-screen bullet
does not self-destroy), and across updates with nonnegative elapsed times
`y` never decreases. -/
theorem bullet_update_motion (g : GameObject) (dt : ℚ) :
    (Bullet.update dt g).sprite.y = g.sprite.y + 180 * dt ∧
    (Bullet.update 1 g).sprite.y = g.sprite.y + 180 ∧
    (Bullet.update dt g).sprite.x = g.sprite.x ∧
    (Bullet.update dt g).destroyed = g.destroyed ∧
    (Bullet.update dt g).exploded = g.exploded ∧
    (∀ dts : List ℚ, (∀ d ∈ dts, 0 ≤ d) →
      g.sprite.y ≤ (dts.foldl (fun s d => Bullet.update d s) g).sprite.y) := by
  refine ⟨?_, ?_, rfl, rfl, rfl, fun dts h => bullet_foldl_y_mono dts g h⟩
  · simp [Bullet.update, Bullet.speed]
  · simp [Bullet.update, Bullet.speed]

/-- Witness for C7 at a concrete bullet and elapsed times. -/
theorem bullet_update_motion_witness :
    (GameObject.init (2, 4) (1/5) 0 5).sprite.y ≤
      (([1, 1/2] : List ℚ).foldl (fun s d => Bullet.update d s)
        (GameObject.init (2, 4) (1/5) 0 5)).sprite.y :=
  (bullet_update_motion (GameObject.init (2, 4) (1/5) 0 5) 0).2.2.2.2.2
    [1, 1/2] (by intro d hd; simp at hd; rcases hd with h | h <;> norm_num [h])

/-- C10: the call `A.has_hit(B)` leaves both objects' states unchanged,
and its boolean result is determined by the two sprites alone (position
and size), so two calls with identical states return the same boolean. -/
theorem hasHit_pure (A B : GameObject) :
    (GameObject.has_hit_call A B).2.1 = A ∧
    (GameObject.has_hit_call A B).2.2 = B ∧
    (GameObject.has_hit_call A B).1 = A.has_hit B ∧
    (∀ A2 B2 : GameObject, A2.sprite = A.sprite → B2.sprite = B.sprite →
      (GameObject.has_hit_call A2 B2).1 = (GameObject.has_hit_call A B).1) := by
  refine ⟨?_, ?_, ?_, ?_⟩
  · unfold GameObject.has_hit_call; split <;> [skip; rfl]; split <;> rfl
  · unfold GameObject.has_hit_call; split <;> [skip; rfl]; split <;> rfl
  · unfold GameObject.has_hit_call GameObject.has_hit
    split <;> [skip; rfl]; split <;> rfl
  · intro A2 B2 h1 h2
    unfold GameObject.has_hit_call
    rw [h1, h2]
    split <;> [skip; rfl]; split <;> rfl

/-- Witness for C10 at concrete objects. -/
theorem hasHit_pure_witness :
    (GameObject.has_hit_call (GameObject.init (3, 3) 1 5 5)
        (GameObject.init (10, 10) 1 0 0)).1 =
      (GameObject.has_hit_call (GameObject.init (3, 3) 1 5 5)
        (GameObject.init (10, 10) 1 0 0)).1 :=
  (hasHit_pure (GameObject.init (3, 3) 1 5 5)
      (GameObject.init (10, 10) 1 0 0)).2.2.2
    (GameObject.init (3, 3) 1 5 5) (GameObject.init (10, 10) 1 0 0) rfl rfl

/-- Helper: `Player.update` leaves the inherited `GameObject` flags
untouched (movement only changes `sprite.x`; firing only changes
`cooldown` and the pending callback). -/
lemma player_update_obj_flags (env : Env) (keys : Keys) (now dt : ℚ)
    (p : PlayerState) (bs : List GameObject) :
    ((Player.update env keys now dt p bs).1).obj.destroyed = p.obj.destroyed ∧
    ((Player.update env keys now dt p bs).1).obj.exploded = p.obj.exploded := by
  unfold Player.update Player.move
  dsimp only
  split_ifs <;> simp_all

/-- C8: `exploded` and `destroyed` are monotone: no operation of the model
(draw, destroy, explode, the scheduled destroy callback, Bullet.update,
Player.move, Player.end_cooldown, Player.update, has_hit) ever resets a
true flag to false; and `destroy()` is idempotent: a second call leaves
the whole state unchanged. -/
theorem flags_monotone_and_destroy_idempotent :
    (∀ g : GameObject, GameObject.destroy (GameObject.destroy g)
        = GameObject.destroy g) ∧
    (∀ g : GameObject, (GameObject.destroy g).destroyed = true ∧
        (GameObject.destroy g).exploded = g.exploded) ∧
    (∀ g : GameObject, GameObject.draw g = g) ∧
    (∀ (g : GameObject) (t : ℚ), g.destroyed = true →
        (GameObject.runSched t g).destroyed = true) ∧
    (∀ (g : GameObject) (t : ℚ),
        (GameObject.runSched t g).exploded = g.exploded) ∧
    (∀ (env : Env) (now : ℚ) (g : GameObject),
        (GameObject.explode env now g).exploded = true ∧
        (GameObject.explode env now g).destroyed = g.destroyed) ∧
    (∀ (g : GameObject) (dt : ℚ),
        (Bullet.update dt g).destroyed = g.destroyed ∧
        (Bullet.update dt g).exploded = g.exploded) ∧
    (∀ (p : PlayerState) (spd dt : ℚ),
        (Player.move spd dt p).obj.destroyed = p.obj.destroyed ∧
        (Player.move spd dt p).obj.exploded = p.obj.exploded) ∧
    (∀ p : PlayerState, (Player.end_cooldown p).obj = p.obj) ∧
    (∀ (env : Env) (keys : Keys) (now dt : ℚ) (p : PlayerState)
        (bs : List GameObject),
        ((Player.update env keys now dt p bs).1).obj.destroyed
            = p.obj.destroyed ∧
        ((Player.update env keys now dt p bs).1).obj.exploded
            = p.obj.exploded) ∧
    (∀ A B : GameObject, (GameObject.has_hit_call A B).2.1.destroyed
        = A.destroyed ∧ (GameObject.has_hit_call A B).2.2.destroyed
        = B.destroyed ∧ (GameObject.has_hit_call A B).2.1.exploded
        = A.exploded ∧ (GameObject.has_hit_call A B).2.2.exploded
        = B.exploded) := by
  refine ⟨fun g => rfl, fun g => ⟨rfl, rfl⟩, fun g => rfl, ?_, ?_,
    fun env now g => ⟨rfl, rfl⟩, fun g dt => ⟨rfl, rfl⟩,
    fun p spd dt => ⟨rfl, rfl⟩, fun p => rfl,
    fun env keys now dt p bs => player_update_obj_flags env keys now dt p bs,
    ?_⟩
  · intro g t h
    unfold GameObject.runSched
    split <;> [split; skip] <;> simp_all
  · intro g t
    unfold GameObject.runSched
    split <;> [split; skip] <;> simp_all
  · intro A B
    unfold GameObject.has_hit_call
    split <;> [split; skip] <;> simp_all

/-- Witness for C8 at a concrete already-destroyed object. -/
theorem flags_monotone_witness :
    (GameObject.runSched 3 (GameObject.destroy
        (GameObject.init (2, 2) 1 0 0))).destroyed = true :=
  flags_monotone_and_destroy_idempotent.2.2.2.1
    (GameObject.destroy (GameObject.init (2, 2) 1 0 0)) 3 rfl

/-- C3: calling `explode()` at simulated time `T` on a live object with no
destroy callback already pending sets `exploded` immediately, and the
scheduled `destroy` callback makes `destroyedAt` false at every queried
time in `[T, T + explosion_time)` and true at every queried time
`≥ T + explosion_time` (explosion_time = 0.2). -/
theorem explosion_timing (env : Env) (T t : ℚ) (g : GameObject)
    (hd : g.destroyed = false) (hp : g.pendingDestroyAt = none) :
    (GameObject.explode env T g).exploded = true ∧
    (T ≤ t → t < T + GameObject.explosion_time →
      GameObject.destroyedAt t (GameObject.explode env T g) = false) ∧
    (T + GameObject.explosion_time ≤ t →
      GameObject.destroyedAt t (GameObject.explode env T g) = true) := by
  refine ⟨rfl, ?_, ?_⟩
  · intro h1 h2
    unfold GameObject.destroyedAt GameObject.runSched GameObject.explode
    simp only
    rw [if_neg (by linarith)]
    exact hd
  · intro h
    unfold GameObject.destroyedAt GameObject.runSched GameObject.explode
    simp only
    rw [if_pos h]

/-- Witness for C3: a concrete fresh object exploded at time 0, queried at
0.1 (still alive) and at 0.2 (destroyed). -/
theorem explosion_timing_witness :
    GameObject.destroyedAt (1/10) (GameObject.explode ⟨3, 3, 1, 1, 2, 2⟩ 0
        (GameObject.init (3, 3) 1 0 0)) = false ∧
    GameObject.destroyedAt (1/5) (GameObject.explode ⟨3, 3, 1, 1, 2, 2⟩ 0
        (GameObject.init (3, 3) 1 0 0)) = true :=
  ⟨(explosion_timing ⟨3, 3, 1, 1, 2, 2⟩ 0 (1/10)
      (GameObject.init (3, 3) 1 0 0) rfl rfl).2.1 (by norm_num)
      (by norm_num [GameObject.explosion_time]),
   (explosion_timing ⟨3, 3, 1, 1, 2, 2⟩ 0 (1/5)
      (GameObject.init (3, 3) 1 0 0) rfl rfl).2.2
      (by norm_num [GameObject.explosion_time])⟩

/-- C4: in a `Player.update` tick, holding both movement keys leaves
`position.x` unchanged (the two exclusive branches both fail); holding
exactly one changes `position.x` by exactly `-speed * dt` (left) or
`+speed * dt` (right), with `speed = 150`. -/
theorem player_movement (env : Env) (keys : Keys) (now dt : ℚ)
    (p : PlayerState) (bs : List GameObject) :
    Player.speed = 150 ∧
    (keys.left = true → keys.right = true →
      ((Player.update env keys now dt p bs).1).obj.sprite.x
        = p.obj.sprite.x) ∧
    (keys.left = true → keys.right = false →
      ((Player.update env keys now dt p bs).1).obj.sprite.x
        = p.obj.sprite.x - 150 * dt) ∧
    (keys.right = true → keys.left = false →
      ((Player.update env keys now dt p bs).1).obj.sprite.x
        = p.obj.sprite.x + 150 * dt) ∧
    (keys.left = false → keys.right = false →
      ((Player.update env keys now dt p bs).1).obj.sprite.x
        = p.obj.sprite.x) := by
  refine ⟨rfl, ?_, ?_, ?_, ?_⟩ <;> intro h1 h2 <;>
    unfold Player.update Player.move <;> dsimp only <;>
    split_ifs <;> simp_all [Player.speed] <;> ring

/-- Witness for C4: both keys held at a concrete state leave x at 20. -/
theorem player_movement_witness :
    ((Player.update ⟨6, 8, 2, 4, 3, 3⟩ ⟨true, true, false⟩ 0 1
        (Player.init ⟨6, 8, 2, 4, 3, 3⟩) []).1).obj.sprite.x
      = (Player.init ⟨6, 8, 2, 4, 3, 3⟩).obj.sprite.x :=
  (player_movement ⟨6, 8, 2, 4, 3, 3⟩ ⟨true, true, false⟩ 0 1
      (Player.init ⟨6, 8, 2, 4, 3, 3⟩) []).2.1 rfl rfl

/-- C5: `Player.fire()` appends exactly one new Bullet to the window's
bullet collection, at `x = player.x + player.width / 2` and
`y = playerImageHeight + bulletImageHeight * bulletScale`; in particular a
player at `x = 100` with sprite width 40 spawns the bullet at `x = 120`. -/
theorem fire_spawns_one_bullet (env : Env) (p : PlayerState)
    (bs : List GameObject) :
    Player.fire env p bs
      = bs ++ [Bullet.init env (p.obj.sprite.x + p.obj.sprite.width / 2)] ∧
    (Player.fire env p bs).length = bs.length + 1 ∧
    (∀ x_pos : ℚ, (Bullet.init env x_pos).sprite.x = x_pos) ∧
    (∀ x_pos : ℚ, (Bullet.init env x_pos).sprite.y
        = env.playerImgH + env.bulletImgH * Bullet.scale) ∧
    (p.obj.sprite.x = 100 → p.obj.sprite.width = 40 →
      Player.fire env p bs = bs ++ [Bullet.init env 120]) := by
  refine ⟨rfl, by simp [Player.fire], fun x_pos => rfl, fun x_pos => rfl, ?_⟩
  intro hx hw
  unfold Player.fire
  rw [hx, hw]
  norm_num

/-- Witness for C5: a player moved to x = 100 with sprite width 40 fires a
bullet at x = 120. -/
theorem fire_spawns_one_bullet_witness :
    Player.fire ⟨40, 8, 2, 4, 3, 3⟩
        (Player.move 80 1 (Player.init ⟨40, 8, 2, 4, 3, 3⟩)) []
      = [] ++ [Bullet.init ⟨40, 8, 2, 4, 3, 3⟩ 120] :=
  (fire_spawns_one_bullet ⟨40, 8, 2, 4, 3, 3⟩
      (Player.move 80 1 (Player.init ⟨40, 8, 2, 4, 3, 3⟩)) []).2.2.2.2
    (by norm_num [Player.move, Player.init, GameObject.init])
    (by norm_num [Player.move, Player.init, GameObject.init, GameObject.scale])

/-- C9: the spawn height of a fired bullet is the constant
`playerImageHeight + bulletImageHeight * bulletScale`, computed from class
attributes only; it does not depend on the firing player's current y
position (overwriting the player's y changes nothing about the fired
bullet). -/
theorem bullet_y_independent_of_player_y (env : Env) (p : PlayerState)
    (bs : List GameObject) (c x_pos : ℚ) :
    (Bullet.init env x_pos).sprite.y
      = env.playerImgH + env.bulletImgH * Bullet.scale ∧
    Player.fire env
        { p with obj := { p.obj with
            sprite := { p.obj.sprite with y := c } } } bs
      = Player.fire env p bs := by
  exact ⟨rfl, rfl⟩

/-- C6 counterexample: `explode()` does change the bounding width used by
`has_hit`.  A fresh object built from a 40×30 player image at scale 1 has
sprite width 40; after `explode()` the sprite is rebuilt from the 16×16
explosion image with no scale assigned, so its width becomes 16. -/
theorem size_changed_by_explode_counterexample :
    (GameObject.explode ⟨40, 30, 2, 4, 16, 16⟩ 0
        (GameObject.init (40, 30) 1 5 5)).sprite.width
      ≠ (GameObject.init (40, 30) 1 5 5).sprite.width := by
  norm_num [GameObject.explode, GameObject.init]

/-- C6 amended: the sprite width and height are immutable under every
operation except `explode()`: destroy, draw, the scheduled destroy
callback, `Bullet.update`, `Player.move`, `Player.end_cooldown`,
`Player.update` and `has_hit` all preserve them, while `explode()`
replaces the sprite with one sized to the raw (unscaled) explosion image,
which can differ from the pre-explosion size. -/
theorem size_immutable_except_explode :
    (∀ g : GameObject, (GameObject.destroy g).sprite = g.sprite) ∧
    (∀ g : GameObject, (GameObject.draw g).sprite = g.sprite) ∧
    (∀ (g : GameObject) (t : ℚ),
        (GameObject.runSched t g).sprite = g.sprite) ∧
    (∀ (g : GameObject) (dt : ℚ),
        (Bullet.update dt g).sprite.width = g.sprite.width ∧
        (Bullet.update dt g).sprite.height = g.sprite.height) ∧
    (∀ (p : PlayerState) (spd dt : ℚ),
        (Player.move spd dt p).obj.sprite.width = p.obj.sprite.width ∧
        (Player.move spd dt p).obj.sprite.height = p.obj.sprite.height) ∧
    (∀ p : PlayerState, (Player.end_cooldown p).obj.sprite = p.obj.sprite) ∧
    (∀ (env : Env) (keys : Keys) (now dt : ℚ) (p : PlayerState)
        (bs : List GameObject),
        ((Player.update env keys now dt p bs).1).obj.sprite.width
            = p.obj.sprite.width ∧
        ((Player.update env keys now dt p bs).1).obj.sprite.height
            = p.obj.sprite.height) ∧
    (∀ A B : GameObject, (GameObject.has_hit_call A B).2.1.sprite
        = A.sprite ∧ (GameObject.has_hit_call A B).2.2.sprite = B.sprite) ∧
    (∀ (env : Env) (now : ℚ) (g : GameObject),
        (GameObject.explode env now g).sprite.width = env.explosionImgW ∧
        (GameObject.explode env now g).sprite.height = env.explosionImgH) := by
  refine ⟨fun g => rfl, fun g => rfl, ?_, fun g dt => ⟨rfl, rfl⟩,
    fun p spd dt => ⟨rfl, rfl⟩, fun p => rfl, ?_, ?_,
    fun env now g => ⟨rfl, rfl⟩⟩
  · intro g t
    unfold GameObject.runSched
    split <;> [split; skip] <;> simp_all
  · intro env keys now dt p bs
    unfold Player.update Player.move
    dsimp only
    split_ifs <;> simp_all
  · intro A B
    unfold GameObject.has_hit_call
    split <;> [split; skip] <;> simp_all

/-- Helper: while `cooldown` is true, `Player.update` produces no bullet
and leaves `cooldown` and the pending callback unchanged. -/
lemma update_while_cooling (env : Env) (keys : Keys) (now dt : ℚ)
    (p : PlayerState) (bs : List GameObject) (hc : p.cooldown = true) :
    (Player.update env keys now dt p bs).2 = bs ∧
    (Player.update env keys now dt p bs).1.cooldown = true ∧
    (Player.update env keys now dt p bs).1.pendingEndCooldownAt
      = p.pendingEndCooldownAt := by
  unfold Player.update Player.move
  dsimp only
  split_ifs <;> simp_all

/-- Helper: when the fire key is held and `cooldown` is false,
`Player.update` appends exactly one bullet, sets `cooldown` and schedules
`end_cooldown` for `cooldown_time` seconds later. -/
lemma update_fires (env : Env) (keys : Keys) (now dt : ℚ)
    (p : PlayerState) (bs : List GameObject)
    (hc : p.cooldown = false) (hf : keys.fire = true) :
    (Player.update env keys now dt p bs).2.length = bs.length + 1 ∧
    (Player.update env keys now dt p bs).1.cooldown = true ∧
    (Player.update env keys now dt p bs).1.pendingEndCooldownAt
      = some (now + Player.cooldown_time) := by
  unfold Player.update Player.move Player.fire
  dsimp only
  split_ifs <;> simp_all

/-- Helper: a whole tick whose simulated time is before the pending
`end_cooldown` due time produces no bullet and keeps the player cooling. -/
lemma tick_while_cooling (env : Env) (Tc : ℚ) (tk : ℚ × ℚ × Keys)
    (s : PlayerState × List GameObject)
    (hc : s.1.cooldown = true) (hp : s.1.pendingEndCooldownAt = some Tc)
    (ht : tk.1 < Tc) :
    (Player.tick env tk s).2 = s.2 ∧
    (Player.tick env tk s).1.cooldown = true ∧
    (Player.tick env tk s).1.pendingEndCooldownAt = some Tc := by
  have hrs : Player.runSched tk.1 s.1 = s.1 := by
    unfold Player.runSched
    rw [hp]
    exact if_neg (not_le.mpr ht)
  unfold Player.tick
  rw [hrs]
  have h := update_while_cooling env tk.2.2 tk.1 tk.2.1 s.1 s.2 hc
  exact ⟨h.1, h.2.1, h.2.2.trans hp⟩

/-- Helper: over any run of ticks all earlier than the pending
`end_cooldown` due time, the bullet collection does not change. -/
lemma runTicks_while_cooling (env : Env) (Tc : ℚ)
    (ticks : List (ℚ × ℚ × Keys)) :
    ∀ s : PlayerState × List GameObject, s.1.cooldown = true →
      s.1.pendingEndCooldownAt = some Tc → (∀ tk ∈ ticks, tk.1 < Tc) →
      (Player.runTicks env ticks s).2 = s.2 := by
  induction ticks with
  | nil => intro s _ _ _; rfl
  | cons tk rest ih =>
    intro s hc hp hlt
    have h1 := tick_while_cooling env Tc tk s hc hp (hlt tk (by simp))
    show (Player.runTicks env rest (Player.tick env tk s)).2 = s.2
    rw [ih (Player.tick env tk s) h1.2.1 h1.2.2
      (fun x hx => hlt x (by simp [hx]))]
    exact h1.1

/-- C2: a player starting with `cooldown = false` that holds the fire key
at the tick at time `T` produces exactly one bullet at that tick, ends the
tick with `cooldown = true` and `end_cooldown` scheduled for
`T + cooldown_time`; over any further ticks at simulated times earlier
than `T + cooldown_time` (fire key held or not) no bullet is produced;
`Player.update` never resets a true `cooldown`, and only the scheduled
`end_cooldown` callback, once its due time is reached, resets `cooldown`
to false. -/
theorem cooldown_gating (env : Env) (T dt0 : ℚ) (k0 : Keys)
    (p0 : PlayerState) (bs0 : List GameObject)
    (ticks : List (ℚ × ℚ × Keys))
    (hc : p0.cooldown = false) (hp : p0.pendingEndCooldownAt = none)
    (hf : k0.fire = true)
    (hticks : ∀ tk ∈ ticks, tk.1 < T + Player.cooldown_time) :
    ((Player.tick env (T, dt0, k0) (p0, bs0)).2).length = bs0.length + 1 ∧
    (Player.tick env (T, dt0, k0) (p0, bs0)).1.cooldown = true ∧
    (Player.tick env (T, dt0, k0) (p0, bs0)).1.pendingEndCooldownAt
        = some (T + Player.cooldown_time) ∧
    (Player.runTicks env ticks (Player.tick env (T, dt0, k0) (p0, bs0))).2
        = (Player.tick env (T, dt0, k0) (p0, bs0)).2 ∧
    (∀ (env2 : Env) (keys : Keys) (now dt : ℚ) (p : PlayerState)
        (bs : List GameObject), p.cooldown = true →
        ((Player.update env2 keys now dt p bs).1).cooldown = true) ∧
    (∀ p : PlayerState, (Player.end_cooldown p).cooldown = false) ∧
    (∀ (p : PlayerState) (t : ℚ), (Player.runSched t p).cooldown = false →
        p.cooldown = false ∨
          ∃ te, p.pendingEndCooldownAt = some te ∧ te ≤ t) := by
  have hrs0 : Player.runSched T p0 = p0 := by
    unfold Player.runSched
    rw [hp]
  have htick : Player.tick env (T, dt0, k0) (p0, bs0)
      = Player.update env k0 T dt0 p0 bs0 := by
    unfold Player.tick
    dsimp only
    rw [hrs0]
  have h1 := update_fires env k0 T dt0 p0 bs0 hc hf
  rw [htick]
  refine ⟨h1.1, h1.2.1, h1.2.2, ?_, ?_, fun p => rfl, ?_⟩
  · rw [← htick]
    exact runTicks_while_cooling env (T + Player.cooldown_time) ticks
      (Player.tick env (T, dt0, k0) (p0, bs0))
      (htick ▸ h1.2.1) (htick ▸ h1.2.2) hticks
  · intro env2 keys now dt p bs hcool
    exact (update_while_cooling env2 keys now dt p bs hcool).2.1
  · intro p t h
    unfold Player.runSched at h
    split at h
    · rename_i td heq
      split at h
      · rename_i hle
        exact Or.inr ⟨td, heq, hle⟩
      · exact Or.inl h
    · exact Or.inl h

/-- Witness for C2: a fresh player fires at tick time 0 producing one
bullet, and a later fire-key-held tick at time 1/4 (< 0.5) produces no
further bullet. -/
theorem cooldown_gating_witness :
    ((Player.tick ⟨5, 5, 1, 1, 2, 2⟩ ((0 : ℚ), (1/120 : ℚ),
        Keys.mk false false true)
        (Player.init ⟨5, 5, 1, 1, 2, 2⟩, ([] : List GameObject))).2).length
      = ([] : List GameObject).length + 1 ∧
    (Player.runTicks ⟨5, 5, 1, 1, 2, 2⟩
        [((1/4 : ℚ), (1/120 : ℚ), Keys.mk false false true)]
        (Player.tick ⟨5, 5, 1, 1, 2, 2⟩ ((0 : ℚ), (1/120 : ℚ),
          Keys.mk false false true)
          (Player.init ⟨5, 5, 1, 1, 2, 2⟩, ([] : List GameObject)))).2
      = (Player.tick ⟨5, 5, 1, 1, 2, 2⟩ ((0 : ℚ), (1/120 : ℚ),
          Keys.mk false false true)
          (Player.init ⟨5, 5, 1, 1, 2, 2⟩, ([] : List GameObject))).2 := by
  have h := cooldown_gating ⟨5, 5, 1, 1, 2, 2⟩ 0 (1/120)
    (Keys.mk false false true) (Player.init ⟨5, 5, 1, 1, 2, 2⟩) []
    [((1/4 : ℚ), (1/120 : ℚ), Keys.mk false false true)]
    rfl rfl rfl
    (by
      intro tk htk
      simp only [List.mem_singleton] at htk
      rw [htk]
      norm_num [Player.cooldown_time])
  exact ⟨h.1, h.2.2.2.1⟩
